import Mathlib

/-!
Verification development for the Cooperative Bank Web Backend.

This file gives a shallow embedding of the banking routes of the repository
(src/routes/transactions.js, src/routes/accounts.js, the Account and
Transaction mongoose models, and the auth middleware) and proves properties
of that embedding.

Modelling conventions:
* Mongo ObjectIds are modelled as natural numbers.
* Currency amounts are JS numbers in the source; they are modelled as exact
  integers (`Int`).  Every balance and amount appearing in the repository's
  documentation and scenarios is a whole number; the validator bound
  `isFloat({ min: 0.01 })` is modelled at integer granularity as `1 ≤ amount`
  (the smallest representable positive amount).
* The database is a `BankState`: the list of Account documents and the list
  of Transaction documents, in insertion order.
* `account.save()` / `transaction.save()` persist into that state.  The
  mongoose session used by POST /transfer is modelled by discarding all
  staged writes when a later step of the session fails.  A possible failure
  of `transaction.save()` (the step that can fail after balances were
  already written) is modelled by the explicit `txnSaveOk` flag given to
  each operation; `txnSaveOk = true` is the failure-free run.
* Timestamps (`lastTransactionDate`, `processedAt`, `openedDate`) and the
  random `transactionId` are not modelled; no property below mentions them.
-/

namespace CoopBank

/-- Roles from userSchema.role enum in src/models/User.js:
    ['member', 'admin', 'manager', 'super_admin']. -/
inductive Role where
  | member
  | admin
  | manager
  | super_admin
deriving DecidableEq, Repr

/-- Account types from accountSchema.accountType enum:
    ['savings', 'current', 'fixed_deposit', 'recurring_deposit']. -/
inductive AccountType where
  | savings
  | current
  | fixed_deposit
  | recurring_deposit
deriving DecidableEq, Repr

/-- Transaction types from transactionSchema.transactionType enum:
    ['deposit', 'withdrawal', 'transfer', 'interest', 'penalty']. -/
inductive TxnType where
  | deposit
  | withdrawal
  | transfer
  | interest
  | penalty
deriving DecidableEq, Repr

/-- An Account document (accountSchema in the Account model file).
    `id` is the Mongo _id.  Date fields and branchCode are not modelled. -/
structure Account where
  id : Nat
  accountNumber : String
  userId : Nat
  cooperativeBankId : Nat
  accountType : AccountType
  balance : Int
  minimumBalance : Int
  interestRate : Int
  isActive : Bool
  nomineeDetails : Option String
deriving DecidableEq, Repr

/-- A Transaction document (transactionSchema in the Transaction model file).
    The generated random transactionId, status (always the default
    'completed' on the routes modelled here) and timestamps are not
    modelled. -/
structure Transaction where
  cooperativeBankId : Nat
  fromAccount : Option Nat
  toAccount : Option Nat
  amount : Int
  transactionType : TxnType
  description : String
  balanceAfter : Int
  referenceNumber : Option String
  processedBy : Nat
deriving DecidableEq, Repr

/-- The authenticated caller after the authenticateToken middleware:
    req.user._id, req.user.role, and req.cooperativeBankId (set by the
    middleware to the user's own cooperative bank id). -/
structure Actor where
  id : Nat
  role : Role
  cooperativeBankId : Nat
deriving DecidableEq, Repr

/-- The persistent state: the Account collection and the Transaction
    collection. -/
structure BankState where
  accounts : List Account
  transactions : List Transaction
deriving DecidableEq, Repr

/-- The distinct error payloads produced by the embedded routes, one
    constructor per errorResponse call site (the human-readable string is
    recorded in the comment). -/
inductive ErrMsg where
  | validationFailed
  | accountNotFound
  | fromAccountNotFound
  | toAccountNotFound
  | accessDenied
  | accessDeniedFromAccount
  | accountDeactivated
  | accountsDeactivated
  | alreadyDeactivated
  | nonZeroBalance
  | sameAccount
  | insufficientBalance (available : Int)
  | duplicateAccountType (t : AccountType)
  | duplicateKey
  | internalError
deriving DecidableEq, Repr

/-- The HTTP outcome of a route: successResponse with its status code, or
    errorResponse with status code and message. -/
inductive Response where
  | success (status : Nat)
  | error (status : Nat) (msg : ErrMsg)
deriving DecidableEq, Repr

/-- What one route invocation leaves behind: the persisted state, the HTTP
    response, and the ids of the Account documents passed to
    `account.save()`, in program order (the acquire/update order of the
    account records). -/
structure Outcome where
  state : BankState
  response : Response
  saveTrace : List Nat
deriving DecidableEq, Repr

/-- Account.findById. -/
def findAccount (st : BankState) (accountId : Nat) : Option Account :=
  st.accounts.find? (fun a => a.id == accountId)

/-- account.save(): the document with the same _id is replaced by the new
    version. -/
def saveAccount (accounts : List Account) (acc : Account) : List Account :=
  accounts.map (fun b => if b.id == acc.id then acc else b)

/-- The inline authorization check shared by the deposit, withdraw,
    transfer, balance, update and deactivate handlers:
    `account.userId.toString() !== req.user._id.toString() &&
     !['admin', 'manager'].includes(req.user.role)` rejects; this function
    is the negation (true = permitted). -/
def authorizedOnAccount (account : Account) (actor : Actor) : Bool :=
  account.userId == actor.id
    || actor.role == Role.admin
    || actor.role == Role.manager

/-- body('amount').isNumeric().isFloat({ min: 0.01 }): at the integer
    granularity of this model, the smallest admissible amount is 1. -/
def validAmount (amount : Int) : Bool :=
  decide (1 ≤ amount)

/-- body('description').trim().notEmpty().isLength({ max: 200 }).  The
    whitespace-trim sanitizer is not modelled; descriptions are opaque
    strings here. -/
def validDescription (d : String) : Bool :=
  !(d == "") && decide (d.length ≤ 200)

/-- body('referenceNumber').optional().trim().isLength({ max: 50 }). -/
def validReference (r : Option String) : Bool :=
  match r with
  | none => true
  | some s => decide (s.length ≤ 50)

/-- Request body of POST /transactions/deposit. -/
structure DepositReq where
  accountId : Nat
  amount : Int
  description : String
  referenceNumber : Option String
deriving DecidableEq, Repr

/-- POST /transactions/deposit.  Validation middleware, account lookup,
    authorization and active checks, then `account.save()` followed by
    `transaction.save()` with no surrounding session: when the transaction
    insert fails (`txnSaveOk = false`) the already-saved balance stays. -/
def deposit (st : BankState) (req : DepositReq) (actor : Actor)
    (txnSaveOk : Bool) : Outcome :=
  if !(validAmount req.amount && validDescription req.description
        && validReference req.referenceNumber) then
    { state := st, response := .error 400 .validationFailed, saveTrace := [] }
  else
    match findAccount st req.accountId with
    | none =>
      { state := st, response := .error 404 .accountNotFound, saveTrace := [] }
    | some account =>
      if !authorizedOnAccount account actor then
        { state := st, response := .error 403 .accessDenied, saveTrace := [] }
      else if !account.isActive then
        { state := st, response := .error 400 .accountDeactivated,
          saveTrace := [] }
      else
        let newBalance := account.balance + req.amount
        let accounts' := saveAccount st.accounts
          { account with balance := newBalance }
        if txnSaveOk then
          { state :=
              { accounts := accounts',
                transactions := st.transactions ++
                  [{ cooperativeBankId := actor.cooperativeBankId,
                     fromAccount := some req.accountId,
                     toAccount := none,
                     amount := req.amount,
                     transactionType := .deposit,
                     description := req.description,
                     balanceAfter := newBalance,
                     referenceNumber := req.referenceNumber,
                     processedBy := actor.id }] },
            response := .success 201,
            saveTrace := [account.id] }
        else
          { state := { accounts := accounts',
                       transactions := st.transactions },
            response := .error 500 .internalError,
            saveTrace := [account.id] }

/-- Request body of POST /transactions/withdraw. -/
structure WithdrawReq where
  accountId : Nat
  amount : Int
  description : String
deriving DecidableEq, Repr

/-- POST /transactions/withdraw.  Same pipeline as deposit plus the
    available-balance check
    `const availableBalance = account.balance - account.minimumBalance;
     if (amount > availableBalance) ...`, and the balance write and the
    transaction insert are again two independent saves. -/
def withdraw (st : BankState) (req : WithdrawReq) (actor : Actor)
    (txnSaveOk : Bool) : Outcome :=
  if !(validAmount req.amount && validDescription req.description) then
    { state := st, response := .error 400 .validationFailed, saveTrace := [] }
  else
    match findAccount st req.accountId with
    | none =>
      { state := st, response := .error 404 .accountNotFound, saveTrace := [] }
    | some account =>
      if !authorizedOnAccount account actor then
        { state := st, response := .error 403 .accessDenied, saveTrace := [] }
      else if !account.isActive then
        { state := st, response := .error 400 .accountDeactivated,
          saveTrace := [] }
      else
        let availableBalance := account.balance - account.minimumBalance
        if availableBalance < req.amount then
          { state := st,
            response := .error 400 (.insufficientBalance availableBalance),
            saveTrace := [] }
        else
          let newBalance := account.balance - req.amount
          let accounts' := saveAccount st.accounts
            { account with balance := newBalance }
          if txnSaveOk then
            { state :=
                { accounts := accounts',
                  transactions := st.transactions ++
                    [{ cooperativeBankId := actor.cooperativeBankId,
                       fromAccount := some req.accountId,
                       toAccount := none,
                       amount := req.amount,
                       transactionType := .withdrawal,
                       description := req.description,
                       balanceAfter := newBalance,
                       referenceNumber := none,
                       processedBy := actor.id }] },
              response := .success 201,
              saveTrace := [account.id] }
          else
            { state := { accounts := accounts',
                         transactions := st.transactions },
              response := .error 500 .internalError,
              saveTrace := [account.id] }

/-- Request body of POST /transactions/transfer. -/
structure TransferReq where
  fromAccountId : Nat
  toAccountId : Nat
  amount : Int
  description : String
deriving DecidableEq, Repr

/-- POST /transactions/transfer.  Validation, same-account check, the two
    lookups, authorization on the from-account only, active check on both,
    available-balance check on the from-account, then inside a mongoose
    session: save the debited from-account, save the credited to-account
    (in that program order), insert one Transaction with balanceAfter equal
    to the from-account's post-debit balance, and commit; on a failure
    inside the session (`txnSaveOk = false`) the session is aborted and all
    staged writes are discarded. -/
def transfer (st : BankState) (req : TransferReq) (actor : Actor)
    (txnSaveOk : Bool) : Outcome :=
  if !(validAmount req.amount && validDescription req.description) then
    { state := st, response := .error 400 .validationFailed, saveTrace := [] }
  else if req.fromAccountId == req.toAccountId then
    { state := st, response := .error 400 .sameAccount, saveTrace := [] }
  else
    match findAccount st req.fromAccountId, findAccount st req.toAccountId with
    | none, _ =>
      { state := st, response := .error 404 .fromAccountNotFound,
        saveTrace := [] }
    | some _, none =>
      { state := st, response := .error 404 .toAccountNotFound,
        saveTrace := [] }
    | some fromAccount, some toAccount =>
      if !authorizedOnAccount fromAccount actor then
        { state := st, response := .error 403 .accessDeniedFromAccount,
          saveTrace := [] }
      else if !fromAccount.isActive || !toAccount.isActive then
        { state := st, response := .error 400 .accountsDeactivated,
          saveTrace := [] }
      else
        let availableBalance :=
          fromAccount.balance - fromAccount.minimumBalance
        if availableBalance < req.amount then
          { state := st,
            response := .error 400 (.insufficientBalance availableBalance),
            saveTrace := [] }
        else
          let fromAccount' :=
            { fromAccount with balance := fromAccount.balance - req.amount }
          let toAccount' :=
            { toAccount with balance := toAccount.balance + req.amount }
          let accounts' :=
            saveAccount (saveAccount st.accounts fromAccount') toAccount'
          if txnSaveOk then
            { state :=
                { accounts := accounts',
                  transactions := st.transactions ++
                    [{ cooperativeBankId := actor.cooperativeBankId,
                       fromAccount := some req.fromAccountId,
                       toAccount := some req.toAccountId,
                       amount := req.amount,
                       transactionType := .transfer,
                       description := req.description,
                       balanceAfter := fromAccount'.balance,
                       referenceNumber := none,
                       processedBy := actor.id }] },
              response := .success 201,
              saveTrace := [fromAccount.id, toAccount.id] }
          else
            { state := st,
              response := .error 500 .internalError,
              saveTrace := [fromAccount.id, toAccount.id] }

/-- Request body of POST /accounts (create account). -/
structure CreateAccountReq where
  accountType : AccountType
  minimumBalance : Option Int
  interestRate : Option Int
  nomineeDetails : Option String
deriving DecidableEq, Repr

/-- body('minimumBalance').optional().isFloat({ min: 0 }) and
    body('interestRate').optional().isFloat({ min: 0 }). -/
def validCreateReq (req : CreateAccountReq) : Bool :=
  (match req.minimumBalance with
   | none => true
   | some m => decide (0 ≤ m))
  && (match req.interestRate with
      | none => true
      | some r => decide (0 ≤ r))

/-- JavaScript `value || dflt` over an optional numeric field: an absent
    field and the (falsy) value 0 both select the default. -/
def jsOrDefault (v : Option Int) (dflt : Int) : Int :=
  match v with
  | none => dflt
  | some m => if m == 0 then dflt else m

/-- String(count + 1).padStart(12, '0') from the account pre-save hook. -/
def padStart12 (s : String) : String :=
  String.mk (List.leftpad 12 '0' s.toList)

/-- The accountSchema.pre('save') hook: count the Account documents of the
    account's cooperative bank and use count + 1, left-padded to 12 digits,
    as the new accountNumber. -/
def nextAccountNumber (st : BankState) (bankId : Nat) : String :=
  padStart12 (toString
    ((st.accounts.filter (fun a => a.cooperativeBankId == bankId)).length + 1))

/-- The Account document POST /accounts builds: balance defaults to 0,
    isActive to true, minimumBalance and interestRate default through the
    JS `||` operator, and the pre-save hook assigns the accountNumber. -/
def newAccountDoc (st : BankState) (req : CreateAccountReq) (actor : Actor)
    (newId : Nat) : Account :=
  { id := newId,
    accountNumber := nextAccountNumber st actor.cooperativeBankId,
    userId := actor.id,
    cooperativeBankId := actor.cooperativeBankId,
    accountType := req.accountType,
    balance := 0,
    minimumBalance := jsOrDefault req.minimumBalance
      (if req.accountType == .savings then 1000 else 0),
    interestRate := jsOrDefault req.interestRate
      (if req.accountType == .savings then 4 else 0),
    isActive := true,
    nomineeDetails := req.nomineeDetails }

/-- POST /accounts.  Validation, the one-active-account-per-type check
    (Account.findOne({ userId, accountType, isActive: true })), then the
    new document is inserted; the insert succeeds unless the collection's
    unique index on accountNumber already holds the generated number (a
    duplicate-key error surfaced by asyncHandler as a 500). -/
def createAccount (st : BankState) (req : CreateAccountReq) (actor : Actor)
    (newId : Nat) : Outcome :=
  if !validCreateReq req then
    { state := st, response := .error 400 .validationFailed, saveTrace := [] }
  else if st.accounts.any (fun a =>
      a.userId == actor.id && a.accountType == req.accountType && a.isActive)
  then
    { state := st,
      response := .error 400 (.duplicateAccountType req.accountType),
      saveTrace := [] }
  else if st.accounts.any (fun a =>
      a.accountNumber == nextAccountNumber st actor.cooperativeBankId) then
    { state := st, response := .error 500 .duplicateKey, saveTrace := [] }
  else
    { state := { accounts :=
                   st.accounts ++ [newAccountDoc st req actor newId],
                 transactions := st.transactions },
      response := .success 201,
      saveTrace := [newId] }

/-- PUT /accounts/:accountId.  Lookup, the shared authorization check, then
    findByIdAndUpdate restricted to allowedUpdates = ['nomineeDetails'];
    no other field of the account (in particular not the balance) is
    touched. -/
def updateAccountDetails (st : BankState) (accountId : Nat) (actor : Actor)
    (nominee : Option String) : Outcome :=
  match findAccount st accountId with
  | none =>
    { state := st, response := .error 404 .accountNotFound, saveTrace := [] }
  | some account =>
    if !authorizedOnAccount account actor then
      { state := st, response := .error 403 .accessDenied, saveTrace := [] }
    else
      let account' :=
        match nominee with
        | none => account
        | some n => { account with nomineeDetails := some n }
      { state := { accounts := saveAccount st.accounts account',
                   transactions := st.transactions },
        response := .success 200,
        saveTrace := [account.id] }

/-- PUT /accounts/:accountId/deactivate.  Lookup, the shared authorization
    check, `if (!account.isActive)` rejects an already-inactive account,
    `if (account.balance > 0)` rejects a non-empty account ('Cannot
    deactivate account with remaining balance...'), else isActive is set to
    false and the account saved. -/
def deactivateAccount (st : BankState) (accountId : Nat) (actor : Actor) :
    Outcome :=
  match findAccount st accountId with
  | none =>
    { state := st, response := .error 404 .accountNotFound, saveTrace := [] }
  | some account =>
    if !authorizedOnAccount account actor then
      { state := st, response := .error 403 .accessDenied, saveTrace := [] }
    else if !account.isActive then
      { state := st, response := .error 400 .alreadyDeactivated,
        saveTrace := [] }
    else if 0 < account.balance then
      { state := st, response := .error 400 .nonZeroBalance, saveTrace := [] }
    else
      { state := { accounts := saveAccount st.accounts
                     { account with isActive := false },
                   transactions := st.transactions },
        response := .success 200,
        saveTrace := [account.id] }

/-- One state-changing operation of the embedded system. -/
inductive Op where
  | create (req : CreateAccountReq) (actor : Actor) (newId : Nat)
  | deposit (req : DepositReq) (actor : Actor) (txnSaveOk : Bool)
  | withdraw (req : WithdrawReq) (actor : Actor) (txnSaveOk : Bool)
  | transfer (req : TransferReq) (actor : Actor) (txnSaveOk : Bool)
  | update (accountId : Nat) (actor : Actor) (nominee : Option String)
  | deactivate (accountId : Nat) (actor : Actor)
deriving Repr

/-- Dispatch one operation against the state. -/
def applyOp (st : BankState) : Op → Outcome
  | .create req actor newId => createAccount st req actor newId
  | .deposit req actor ok => deposit st req actor ok
  | .withdraw req actor ok => withdraw st req actor ok
  | .transfer req actor ok => transfer st req actor ok
  | .update accountId actor nominee =>
      updateAccountDetails st accountId actor nominee
  | .deactivate accountId actor => deactivateAccount st accountId actor

/-- Identifiers bound in the module scope of src/routes/transactions.js:
    the destructured require bindings of lines 1-6 and the local `router`
    of line 8.  The auth middleware import on line 5 destructures only
    authenticateToken and authorizeRoles. -/
def transactionsModuleScope : List String :=
  ["express", "body", "param", "Account", "Transaction",
   "authenticateToken", "authorizeRoles",
   "handleValidationErrors", "asyncHandler", "successResponse",
   "errorResponse", "router"]

/-- The identifiers the GET /admin/all-transactions registration applies as
    middleware arguments (line 319 of src/routes/transactions.js). -/
def adminAllTransactionsArgs : List String :=
  ["authenticateToken", "authorizeRoles", "authorizeBankAccess",
   "asyncHandler"]

/-- The identifiers the GET /admin/stats registration applies as middleware
    arguments (line 353 of src/routes/transactions.js). -/
def adminStatsArgs : List String :=
  ["authenticateToken", "authorizeRoles", "authorizeBankAccess",
   "asyncHandler"]

/-- Evaluating a route registration resolves every referenced identifier in
    the module scope; the first identifier not bound there raises a
    ReferenceError naming it (JS evaluates the arguments of the
    router.get(...) call at module load). -/
def evalRegistration (scope args : List String) : Except String Unit :=
  match args.find? (fun n => !(scope.contains n)) with
  | some n => .error n
  | none => .ok ()

/-- Membership after account.save(): every document is the saved one or was
    already in the collection. -/
theorem mem_saveAccount {l : List Account} {acc b : Account}
    (hb : b ∈ saveAccount l acc) : b = acc ∨ b ∈ l := by
  simp only [saveAccount, List.mem_map] at hb
  obtain ⟨c, hc, hcb⟩ := hb
  by_cases h : (c.id == acc.id) = true
  · rw [if_pos h] at hcb
    exact Or.inl hcb.symm
  · rw [if_neg h] at hcb
    exact Or.inr (hcb ▸ hc)

/-- The found account is a member of the collection. -/
theorem findAccount_mem {st : BankState} {i : Nat} {a : Account}
    (h : findAccount st i = some a) : a ∈ st.accounts :=
  List.mem_of_find?_eq_some h

/-- The found account carries the looked-up id. -/
theorem findAccount_id {st : BankState} {i : Nat} {a : Account}
    (h : findAccount st i = some a) : a.id = i := by
  have := List.find?_some h
  simpa using this

/-- Looking up the id of a just-saved document finds the saved version,
    provided the save targeted the id the lookup originally resolved to. -/
theorem find?_saveAccount_same {l : List Account} {a acc : Account} {i : Nat}
    (hfind : l.find? (fun b => b.id == i) = some a) (hid : acc.id = a.id) :
    (saveAccount l acc).find? (fun b => b.id == i) = some acc := by
  have haid : a.id = i := by simpa using List.find?_some hfind
  have hacci : acc.id = i := by rw [hid]; exact haid
  induction l with
  | nil => simp [List.find?] at hfind
  | cons hd tl ih =>
    rw [List.find?_cons] at hfind
    simp only [saveAccount, List.map_cons]
    split at hfind
    next hpos =>
      have hda : hd = a := by injection hfind
      have h1 : (hd.id == acc.id) = true := by simp [hda, hid]
      rw [if_pos h1, List.find?_cons]
      simp [hacci]
    next hneg =>
      have hdi : hd.id ≠ i := by simpa using hneg
      have h1 : (hd.id == acc.id) = false := by simp [hacci, hdi]
      rw [if_neg (by simp [h1]), List.find?_cons]
      simp only [show (hd.id == i) = false by simp [hdi]]
      simp only [saveAccount] at ih
      exact ih hfind

/-- Saving one document leaves lookups of any other id unchanged. -/
theorem find?_saveAccount_other (l : List Account) (acc : Account) {i : Nat}
    (h : acc.id ≠ i) :
    (saveAccount l acc).find? (fun b => b.id == i) =
      l.find? (fun b => b.id == i) := by
  induction l with
  | nil => simp [saveAccount]
  | cons hd tl ih =>
    simp only [saveAccount, List.map_cons]
    by_cases hcase : (hd.id == acc.id) = true
    · have hdacc : hd.id = acc.id := by simpa using hcase
      have hacc : (acc.id == i) = false := by simp [h]
      have hhd : (hd.id == i) = false := by rw [hdacc]; exact hacc
      rw [if_pos hcase, List.find?_cons, List.find?_cons]
      simp only [hacc, hhd]
      simpa [saveAccount] using ih
    · rw [if_neg hcase, List.find?_cons, List.find?_cons]
      by_cases hhd : (hd.id == i) = true
      · simp [hhd]
      · simp only [Bool.eq_false_iff.mpr (fun hc => hhd hc)]
        simpa [saveAccount] using ih

/-- Fixture: an active savings account in cooperative bank 1 owned by
    user 10. -/
def acctA : Account :=
  { id := 1, accountNumber := "000000000001", userId := 10,
    cooperativeBankId := 1, accountType := .savings, balance := 5000,
    minimumBalance := 0, interestRate := 4, isActive := true,
    nomineeDetails := none }

/-- Fixture: an active savings account in cooperative bank 2 owned by
    user 20. -/
def acctB : Account :=
  { id := 2, accountNumber := "000000000002", userId := 20,
    cooperativeBankId := 2, accountType := .savings, balance := 500,
    minimumBalance := 0, interestRate := 4, isActive := true,
    nomineeDetails := none }

/-- Fixture: the actor owning acctA, an ordinary member of bank 1. -/
def ownerA : Actor := { id := 10, role := .member, cooperativeBankId := 1 }

/-- Fixture: a state holding one account in bank 1 and one in bank 2. -/
def stCross : BankState := { accounts := [acctA, acctB], transactions := [] }

/-- Fixture: the cross-tenant transfer request, account 1 to account 2. -/
def reqCross : TransferReq :=
  { fromAccountId := 1, toAccountId := 2, amount := 2000,
    description := "funds" }

/-- C1: the transfer handler performs no tenant comparison at all.  At the
    failing input (actor 10, a member of bank 1 who owns account 1,
    transferring 2000 from account 1 in bank 1 to account 2 in bank 2) the
    operation is not rejected: it succeeds with 201, debits account 1 to
    3000, credits account 2 to 2500 and persists a Transaction record,
    although the two accounts belong to different tenants and the actor is
    not a super_admin. -/
theorem crossTenantTransferSucceeds :
    (transfer stCross reqCross ownerA true).response = Response.success 201
    ∧ findAccount (transfer stCross reqCross ownerA true).state 1 =
        some { acctA with balance := 3000 }
    ∧ findAccount (transfer stCross reqCross ownerA true).state 2 =
        some { acctB with balance := 2500 }
    ∧ (transfer stCross reqCross ownerA true).state.transactions.length = 1
    ∧ acctA.cooperativeBankId ≠ acctB.cooperativeBankId
    ∧ ownerA.role ≠ Role.super_admin := by
  decide

/-- Fixture: the empty database. -/
def stEmpty : BankState := { accounts := [], transactions := [] }

/-- Fixture: a plain savings-account creation request. -/
def reqSavings : CreateAccountReq :=
  { accountType := .savings, minimumBalance := none, interestRate := none,
    nomineeDetails := none }

/-- Fixture: a member of bank 2. -/
def memberBank2 : Actor := { id := 20, role := .member, cooperativeBankId := 2 }

/-- C4: the pre-save hook assigns String(count + 1).padStart(12, '0') where
    count is scoped to the account's tenant, while the accountNumber index
    is unique across the whole collection.  At the failing input (bank 1
    and bank 2 each creating their first account on an empty database) both
    generations yield "000000000001", the first insert succeeds, and the
    second insert hits the unique index and fails instead of succeeding. -/
theorem firstAccountsCollideAcrossTenants :
    (createAccount stEmpty reqSavings ownerA 1).response = Response.success 201
    ∧ nextAccountNumber stEmpty 1 = "000000000001"
    ∧ nextAccountNumber (createAccount stEmpty reqSavings ownerA 1).state 2 =
        "000000000001"
    ∧ (createAccount (createAccount stEmpty reqSavings ownerA 1).state
        reqSavings memberBank2 2).response =
        Response.error 500 ErrMsg.duplicateKey
    ∧ (createAccount (createAccount stEmpty reqSavings ownerA 1).state
        reqSavings memberBank2 2).state =
        (createAccount stEmpty reqSavings ownerA 1).state := by
  decide

/-- C10: the two admin routes of src/routes/transactions.js apply the
    identifier authorizeBankAccess, which the module neither imports (its
    auth import destructures only authenticateToken and authorizeRoles)
    nor defines; evaluating either registration stops with a
    ReferenceError for that identifier, so neither endpoint can serve a
    request. -/
theorem adminRoutesReferenceUnboundIdentifier :
    evalRegistration transactionsModuleScope adminAllTransactionsArgs =
        Except.error "authorizeBankAccess"
    ∧ evalRegistration transactionsModuleScope adminStatsArgs =
        Except.error "authorizeBankAccess"
    ∧ transactionsModuleScope.contains "authorizeBankAccess" = false :=
  ⟨rfl, rfl, rfl⟩

/-- Fixture: two accounts of bank 1, both owned by user 10, each with
    balance 1000 and no minimum, so a 100 transfer is valid in either
    direction. -/
def acctP : Account :=
  { id := 1, accountNumber := "000000000001", userId := 10,
    cooperativeBankId := 1, accountType := .savings, balance := 1000,
    minimumBalance := 0, interestRate := 4, isActive := true,
    nomineeDetails := none }

/-- Fixture: the mirror account of acctP. -/
def acctQ : Account :=
  { id := 2, accountNumber := "000000000002", userId := 10,
    cooperativeBankId := 1, accountType := .current, balance := 1000,
    minimumBalance := 0, interestRate := 0, isActive := true,
    nomineeDetails := none }

/-- Fixture: the symmetric two-account state. -/
def stSym : BankState := { accounts := [acctP, acctQ], transactions := [] }

/-- Fixture: transfer 100 from account 1 to account 2. -/
def reqPQ : TransferReq :=
  { fromAccountId := 1, toAccountId := 2, amount := 100,
    description := "swap" }

/-- Fixture: transfer 100 from account 2 to account 1. -/
def reqQP : TransferReq :=
  { fromAccountId := 2, toAccountId := 1, amount := 100,
    description := "swap" }

/-- C9 counterexample: over the same pair of accounts, the order in which
    the transfer handler saves the two account records follows the request
    direction (source first), so the two opposite transfers acquire the
    records in different orders - there is no single total order
    independent of which account is the source. -/
theorem transferSaveOrderFollowsRequestDirection :
    (transfer stSym reqPQ ownerA true).saveTrace = [1, 2]
    ∧ (transfer stSym reqQP ownerA true).saveTrace = [2, 1]
    ∧ (transfer stSym reqPQ ownerA true).saveTrace ≠
        (transfer stSym reqQP ownerA true).saveTrace := by
  decide

/-- Behaviour of the deposit route once validation, lookup, authorization
    and the active check pass: the balance is saved, and the ledger insert
    happens only on a failure-free run. -/
theorem deposit_run (st : BankState) (req : DepositReq) (actor : Actor)
    (ok : Bool) (account : Account)
    (hv : (validAmount req.amount && validDescription req.description
            && validReference req.referenceNumber) = true)
    (hf : findAccount st req.accountId = some account)
    (hauth : authorizedOnAccount account actor = true)
    (hactive : account.isActive = true) :
    deposit st req actor ok =
      if ok then
        { state :=
            { accounts := saveAccount st.accounts
                { account with balance := account.balance + req.amount },
              transactions := st.transactions ++
                [{ cooperativeBankId := actor.cooperativeBankId,
                   fromAccount := some req.accountId,
                   toAccount := none,
                   amount := req.amount,
                   transactionType := .deposit,
                   description := req.description,
                   balanceAfter := account.balance + req.amount,
                   referenceNumber := req.referenceNumber,
                   processedBy := actor.id }] },
          response := .success 201,
          saveTrace := [account.id] }
      else
        { state :=
            { accounts := saveAccount st.accounts
                { account with balance := account.balance + req.amount },
              transactions := st.transactions },
          response := .error 500 .internalError,
          saveTrace := [account.id] } := by
  unfold deposit
  rw [hv, hf]
  simp [hauth, hactive]

/-- The deposit route when the actor fails the owner-or-admin-or-manager
    check. -/
theorem deposit_denied (st : BankState) (req : DepositReq) (actor : Actor)
    (ok : Bool) (account : Account)
    (hv : (validAmount req.amount && validDescription req.description
            && validReference req.referenceNumber) = true)
    (hf : findAccount st req.accountId = some account)
    (hauth : authorizedOnAccount account actor = false) :
    deposit st req actor ok =
      { state := st, response := .error 403 .accessDenied,
        saveTrace := [] } := by
  unfold deposit
  rw [hv, hf]
  simp [hauth]

/-- The deposit route on an inactive account. -/
theorem deposit_inactive (st : BankState) (req : DepositReq) (actor : Actor)
    (ok : Bool) (account : Account)
    (hv : (validAmount req.amount && validDescription req.description
            && validReference req.referenceNumber) = true)
    (hf : findAccount st req.accountId = some account)
    (hauth : authorizedOnAccount account actor = true)
    (hactive : account.isActive = false) :
    deposit st req actor ok =
      { state := st, response := .error 400 .accountDeactivated,
        saveTrace := [] } := by
  unfold deposit
  rw [hv, hf]
  simp [hauth, hactive]

/-- Behaviour of the withdraw route once validation, lookup, authorization
    and the active check pass: the available-balance check decides between
    the insufficient-balance rejection and the two-save mutation path. -/
theorem withdraw_run (st : BankState) (req : WithdrawReq) (actor : Actor)
    (ok : Bool) (account : Account)
    (hv : (validAmount req.amount && validDescription req.description) = true)
    (hf : findAccount st req.accountId = some account)
    (hauth : authorizedOnAccount account actor = true)
    (hactive : account.isActive = true) :
    withdraw st req actor ok =
      if account.balance - account.minimumBalance < req.amount then
        { state := st,
          response := .error 400
            (.insufficientBalance (account.balance - account.minimumBalance)),
          saveTrace := [] }
      else if ok then
        { state :=
            { accounts := saveAccount st.accounts
                { account with balance := account.balance - req.amount },
              transactions := st.transactions ++
                [{ cooperativeBankId := actor.cooperativeBankId,
                   fromAccount := some req.accountId,
                   toAccount := none,
                   amount := req.amount,
                   transactionType := .withdrawal,
                   description := req.description,
                   balanceAfter := account.balance - req.amount,
                   referenceNumber := none,
                   processedBy := actor.id }] },
          response := .success 201,
          saveTrace := [account.id] }
      else
        { state :=
            { accounts := saveAccount st.accounts
                { account with balance := account.balance - req.amount },
              transactions := st.transactions },
          response := .error 500 .internalError,
          saveTrace := [account.id] } := by
  unfold withdraw
  rw [hv, hf]
  simp [hauth, hactive]

/-- The withdraw route when the actor fails the owner-or-admin-or-manager
    check. -/
theorem withdraw_denied (st : BankState) (req : WithdrawReq) (actor : Actor)
    (ok : Bool) (account : Account)
    (hv : (validAmount req.amount && validDescription req.description) = true)
    (hf : findAccount st req.accountId = some account)
    (hauth : authorizedOnAccount account actor = false) :
    withdraw st req actor ok =
      { state := st, response := .error 403 .accessDenied,
        saveTrace := [] } := by
  unfold withdraw
  rw [hv, hf]
  simp [hauth]

/-- The withdraw route on an inactive account. -/
theorem withdraw_inactive (st : BankState) (req : WithdrawReq)
    (actor : Actor) (ok : Bool) (account : Account)
    (hv : (validAmount req.amount && validDescription req.description) = true)
    (hf : findAccount st req.accountId = some account)
    (hauth : authorizedOnAccount account actor = true)
    (hactive : account.isActive = false) :
    withdraw st req actor ok =
      { state := st, response := .error 400 .accountDeactivated,
        saveTrace := [] } := by
  unfold withdraw
  rw [hv, hf]
  simp [hauth, hactive]

/-- Behaviour of the transfer route once validation, the distinct-accounts
    check, both lookups, authorization on the source and both active checks
    pass. -/
theorem transfer_run (st : BankState) (req : TransferReq) (actor : Actor)
    (ok : Bool) (fa ta : Account)
    (hv : (validAmount req.amount && validDescription req.description) = true)
    (hne : (req.fromAccountId == req.toAccountId) = false)
    (hft : findAccount st req.fromAccountId = some fa)
    (htt : findAccount st req.toAccountId = some ta)
    (hauth : authorizedOnAccount fa actor = true)
    (hfa : fa.isActive = true) (hta : ta.isActive = true) :
    transfer st req actor ok =
      if fa.balance - fa.minimumBalance < req.amount then
        { state := st,
          response := .error 400
            (.insufficientBalance (fa.balance - fa.minimumBalance)),
          saveTrace := [] }
      else if ok then
        { state :=
            { accounts := saveAccount
                (saveAccount st.accounts
                  { fa with balance := fa.balance - req.amount })
                { ta with balance := ta.balance + req.amount },
              transactions := st.transactions ++
                [{ cooperativeBankId := actor.cooperativeBankId,
                   fromAccount := some req.fromAccountId,
                   toAccount := some req.toAccountId,
                   amount := req.amount,
                   transactionType := .transfer,
                   description := req.description,
                   balanceAfter := fa.balance - req.amount,
                   referenceNumber := none,
                   processedBy := actor.id }] },
          response := .success 201,
          saveTrace := [fa.id, ta.id] }
      else
        { state := st,
          response := .error 500 .internalError,
          saveTrace := [fa.id, ta.id] } := by
  unfold transfer
  rw [hv, hne, hft, htt]
  simp [hauth, hfa, hta]

/-- The transfer route when the actor fails the owner-or-admin-or-manager
    check on the source account. -/
theorem transfer_denied (st : BankState) (req : TransferReq) (actor : Actor)
    (ok : Bool) (fa ta : Account)
    (hv : (validAmount req.amount && validDescription req.description) = true)
    (hne : (req.fromAccountId == req.toAccountId) = false)
    (hft : findAccount st req.fromAccountId = some fa)
    (htt : findAccount st req.toAccountId = some ta)
    (hauth : authorizedOnAccount fa actor = false) :
    transfer st req actor ok =
      { state := st, response := .error 403 .accessDeniedFromAccount,
        saveTrace := [] } := by
  unfold transfer
  rw [hv, hne, hft, htt]
  simp [hauth]

/-- The transfer route when at least one of the two accounts is inactive. -/
theorem transfer_inactive (st : BankState) (req : TransferReq)
    (actor : Actor) (ok : Bool) (fa ta : Account)
    (hv : (validAmount req.amount && validDescription req.description) = true)
    (hne : (req.fromAccountId == req.toAccountId) = false)
    (hft : findAccount st req.fromAccountId = some fa)
    (htt : findAccount st req.toAccountId = some ta)
    (hauth : authorizedOnAccount fa actor = true)
    (hinactive : (!fa.isActive || !ta.isActive) = true) :
    transfer st req actor ok =
      { state := st, response := .error 400 .accountsDeactivated,
        saveTrace := [] } := by
  unfold transfer
  rw [hv, hne, hft, htt]
  simp only [hauth, Bool.not_true, Bool.false_eq_true, if_false, hinactive,
    if_true]

/-- On a failed session (the transaction insert rejected) the transfer
    route leaves the persistent state untouched, whatever the input: every
    early rejection returns the incoming state, and the aborted session
    discards its staged writes. -/
theorem transfer_abort_state (st : BankState) (req : TransferReq)
    (actor : Actor) : (transfer st req actor false).state = st := by
  unfold transfer
  split
  · rfl
  · split
    · rfl
    · split
      · rfl
      · rfl
      · split
        · rfl
        · split
          · rfl
          · simp only [Bool.false_eq_true, if_false]
            split
            · rfl
            · rfl

/-- C5: for a withdrawal on an existing active account by an authorized
    actor with a valid positive amount, success holds exactly when
    amount is at most balance minus minimumBalance; on success the account
    holds the old balance minus the amount; otherwise the route answers
    with the insufficient-balance error carrying the available balance
    computed at decision time and leaves the state unchanged. -/
theorem withdraw_available_balance_check
    (st : BankState) (req : WithdrawReq) (actor : Actor) (account : Account)
    (hv : (validAmount req.amount && validDescription req.description) = true)
    (hf : findAccount st req.accountId = some account)
    (hauth : authorizedOnAccount account actor = true)
    (hactive : account.isActive = true) :
    ((withdraw st req actor true).response = Response.success 201
      ↔ req.amount ≤ account.balance - account.minimumBalance)
    ∧ (req.amount ≤ account.balance - account.minimumBalance →
        findAccount (withdraw st req actor true).state req.accountId =
          some { account with balance := account.balance - req.amount })
    ∧ (account.balance - account.minimumBalance < req.amount →
        (withdraw st req actor true).response =
          Response.error 400 (ErrMsg.insufficientBalance
            (account.balance - account.minimumBalance))
        ∧ (withdraw st req actor true).state = st) := by
  have hrun := withdraw_run st req actor true account hv hf hauth hactive
  by_cases hcase : account.balance - account.minimumBalance < req.amount
  · rw [if_pos hcase] at hrun
    rw [hrun]
    refine ⟨⟨fun h => by simp at h, fun h => absurd hcase (by omega)⟩,
      fun h => absurd hcase (by omega), fun _ => ⟨rfl, rfl⟩⟩
  · rw [if_neg hcase] at hrun
    simp only [if_true] at hrun
    rw [hrun]
    refine ⟨⟨fun _ => by omega, fun _ => rfl⟩,
      fun _ => ?_, fun h => absurd h hcase⟩
    exact find?_saveAccount_same hf rfl

/-- Fixture: the spec scenario account with balance 1000 and minimum
    balance 1000 (available balance 0), owned by user 10 in bank 1. -/
def acctM : Account :=
  { id := 1, accountNumber := "000000000001", userId := 10,
    cooperativeBankId := 1, accountType := .savings, balance := 1000,
    minimumBalance := 1000, interestRate := 4, isActive := true,
    nomineeDetails := none }

/-- Fixture: the one-account state for the withdrawal scenario. -/
def stM : BankState := { accounts := [acctM], transactions := [] }

/-- Fixture: withdraw 1 from the scenario account. -/
def reqM : WithdrawReq := { accountId := 1, amount := 1, description := "w" }

/-- Witness for C5 at the spec scenario: balance 1000, minimum 1000,
    withdrawal of 1 is rejected with available balance 0 reported and the
    state unchanged. -/
theorem withdraw_available_balance_check_witness :
    (withdraw stM reqM ownerA true).response =
        Response.error 400 (ErrMsg.insufficientBalance 0)
    ∧ (withdraw stM reqM ownerA true).state = stM :=
  (withdraw_available_balance_check stM reqM ownerA acctM (by decide)
    (by decide) (by decide) (by decide)).2.2 (by decide)

/-- C6: a successful transfer debits the source by exactly the amount,
    credits the destination by exactly the amount, preserves the sum of the
    two balances, and appends exactly one Transaction record whose
    balanceAfter is the source's post-debit balance. -/
theorem transfer_balance_preserving
    (st : BankState) (req : TransferReq) (actor : Actor) (fa ta : Account)
    (hv : (validAmount req.amount && validDescription req.description) = true)
    (hne : (req.fromAccountId == req.toAccountId) = false)
    (hft : findAccount st req.fromAccountId = some fa)
    (htt : findAccount st req.toAccountId = some ta)
    (hauth : authorizedOnAccount fa actor = true)
    (hfa : fa.isActive = true) (hta : ta.isActive = true)
    (havail : req.amount ≤ fa.balance - fa.minimumBalance) :
    (transfer st req actor true).response = Response.success 201
    ∧ findAccount (transfer st req actor true).state req.fromAccountId =
        some { fa with balance := fa.balance - req.amount }
    ∧ findAccount (transfer st req actor true).state req.toAccountId =
        some { ta with balance := ta.balance + req.amount }
    ∧ (fa.balance - req.amount) + (ta.balance + req.amount) =
        fa.balance + ta.balance
    ∧ (transfer st req actor true).state.transactions =
        st.transactions ++
          [{ cooperativeBankId := actor.cooperativeBankId,
             fromAccount := some req.fromAccountId,
             toAccount := some req.toAccountId,
             amount := req.amount,
             transactionType := .transfer,
             description := req.description,
             balanceAfter := fa.balance - req.amount,
             referenceNumber := none,
             processedBy := actor.id }] := by
  have hrun := transfer_run st req actor true fa ta hv hne hft htt hauth
    hfa hta
  rw [if_neg (Int.not_lt.mpr havail)] at hrun
  simp only [if_true] at hrun
  have hfromto : req.fromAccountId ≠ req.toAccountId := by simpa using hne
  have hfaid : fa.id = req.fromAccountId := findAccount_id hft
  have htaid : ta.id = req.toAccountId := findAccount_id htt
  rw [hrun]
  refine ⟨rfl, ?_, ?_, by omega, rfl⟩
  · have h1 : (saveAccount st.accounts
        { fa with balance := fa.balance - req.amount }).find?
          (fun b => b.id == req.fromAccountId) =
        some { fa with balance := fa.balance - req.amount } :=
      find?_saveAccount_same hft rfl
    have h2 : ({ ta with balance := ta.balance + req.amount } : Account).id ≠
        req.fromAccountId := by
      simpa [htaid] using fun hc => hfromto hc.symm
    exact (find?_saveAccount_other _ _ h2).trans h1
  · have h0 : ({ fa with balance := fa.balance - req.amount } : Account).id ≠
        req.toAccountId := by
      simpa [hfaid] using hfromto
    have h1 : (saveAccount st.accounts
        { fa with balance := fa.balance - req.amount }).find?
          (fun b => b.id == req.toAccountId) = some ta :=
      (find?_saveAccount_other _ _ h0).trans htt
    exact find?_saveAccount_same h1 rfl

/-- Fixture: the same-tenant destination account of the transfer scenario,
    balance 500, owned by user 20 in bank 1. -/
def acctBsame : Account :=
  { id := 2, accountNumber := "000000000002", userId := 20,
    cooperativeBankId := 1, accountType := .savings, balance := 500,
    minimumBalance := 0, interestRate := 4, isActive := true,
    nomineeDetails := none }

/-- Fixture: the transfer-scenario state, account 1 with 5000 and account 2
    with 500, same tenant. -/
def stScenario : BankState :=
  { accounts := [acctA, acctBsame], transactions := [] }

/-- Fixture: the scenario transfer of 2000 from account 1 to account 2. -/
def reqScenario : TransferReq :=
  { fromAccountId := 1, toAccountId := 2, amount := 2000,
    description := "pay" }

/-- Witness for C6 at the spec scenario: A at 5000 transfers 2000 to B at
    500 in the same tenant, leaving A at 3000 and B at 2500 and exactly one
    Transaction with balanceAfter 3000. -/
theorem transfer_balance_preserving_witness :
    (transfer stScenario reqScenario ownerA true).response =
        Response.success 201
    ∧ findAccount (transfer stScenario reqScenario ownerA true).state 1 =
        some { acctA with balance := 3000 }
    ∧ findAccount (transfer stScenario reqScenario ownerA true).state 2 =
        some { acctBsame with balance := 2500 }
    ∧ ((3000 : Int) + 2500 = 5000 + 500)
    ∧ (transfer stScenario reqScenario ownerA true).state.transactions =
        [{ cooperativeBankId := 1, fromAccount := some 1, toAccount := some 2,
           amount := 2000, transactionType := .transfer, description := "pay",
           balanceAfter := 3000, referenceNumber := none,
           processedBy := 10 }] :=
  transfer_balance_preserving stScenario reqScenario ownerA acctA acctBsame
    (by decide) (by decide) (by decide) (by decide) (by decide) (by decide)
    (by decide) (by decide)

/-- C8: deactivation succeeds exactly on an active account with balance
    zero (balances being non-negative by the schema constraint); an active
    account with a non-zero balance is rejected with the descriptive
    error and the state, hence the account's active flag and balance, is
    unchanged. -/
theorem deactivate_zero_balance_only
    (st : BankState) (accountId : Nat) (actor : Actor) (account : Account)
    (hf : findAccount st accountId = some account)
    (hauth : authorizedOnAccount account actor = true)
    (hbal : 0 ≤ account.balance) :
    ((deactivateAccount st accountId actor).response = Response.success 200
      ↔ (account.isActive = true ∧ account.balance = 0))
    ∧ (account.isActive = true → account.balance ≠ 0 →
        (deactivateAccount st accountId actor).response =
            Response.error 400 ErrMsg.nonZeroBalance
        ∧ (deactivateAccount st accountId actor).state = st) := by
  unfold deactivateAccount
  rw [hf]
  simp only [hauth, Bool.not_true, Bool.false_eq_true, if_false]
  by_cases hact : account.isActive
  · simp only [hact, Bool.not_true, Bool.false_eq_true, if_false]
    by_cases hpos : 0 < account.balance
    · rw [if_pos hpos]
      refine ⟨⟨fun h => by simp at h, fun h => absurd h.2 (by omega)⟩,
        fun _ _ => ⟨rfl, rfl⟩⟩
    · rw [if_neg hpos]
      refine ⟨⟨fun _ => ⟨trivial, by omega⟩, fun _ => rfl⟩,
        fun _ hne => absurd (by omega) hne⟩
  · simp only [Bool.not_eq_true] at hact
    simp only [hact, Bool.not_false, if_true]
    refine ⟨⟨fun h => by simp at h, fun h => absurd h.1 (by simp)⟩,
      fun h => absurd h (by simp)⟩

/-- Fixture: an active, empty account eligible for deactivation. -/
def acctZ : Account :=
  { id := 1, accountNumber := "000000000001", userId := 10,
    cooperativeBankId := 1, accountType := .savings, balance := 0,
    minimumBalance := 0, interestRate := 4, isActive := true,
    nomineeDetails := none }

/-- Fixture: the one-account state for the deactivation witness. -/
def stZ : BankState := { accounts := [acctZ], transactions := [] }

/-- Witness for C8: deactivating the active zero-balance account 1
    succeeds. -/
theorem deactivate_zero_balance_only_witness :
    (deactivateAccount stZ 1 ownerA).response = Response.success 200
      ↔ (acctZ.isActive = true ∧ acctZ.balance = 0) :=
  (deactivate_zero_balance_only stZ 1 ownerA acctZ (by decide) (by decide)
    (by decide)).1

/-- Fixture: a super_admin of bank 1 who does not own account 1. -/
def superActor : Actor :=
  { id := 99, role := .super_admin, cooperativeBankId := 1 }

/-- Fixture: deposit 100 into account 1. -/
def reqDep : DepositReq :=
  { accountId := 1, amount := 100, description := "cash",
    referenceNumber := none }

/-- C3 counterexample: a super_admin who does not own the account is
    rejected by the deposit route with the access-denied error (the inline
    check admits only the owner and the roles admin and manager), contrary
    to the claim that a non-owner super_admin is permitted to operate. -/
theorem superAdminDepositDenied :
    (deposit stSym reqDep superActor true).response =
        Response.error 403 ErrMsg.accessDenied
    ∧ acctP.userId ≠ superActor.id
    ∧ superActor.role = Role.super_admin
    ∧ (deposit stSym reqDep superActor true).state = stSym := by
  decide

/-- C3 (amended): deposit, withdraw and transfer reject with the
    access-denied error exactly when the actor neither owns the (source)
    account nor holds role admin or manager.  The check compares no
    tenants: it is invariant under changing both the account's and the
    actor's cooperative bank, so an admin or manager of any other tenant is
    admitted, while a super_admin who is not the owner is rejected. -/
theorem accessDenied_iff_not_owner_admin_manager
    (st : BankState) (actor : Actor) (account fa ta : Account)
    (dreq : DepositReq) (wreq : WithdrawReq) (treq : TransferReq)
    (hvd : (validAmount dreq.amount && validDescription dreq.description
            && validReference dreq.referenceNumber) = true)
    (hvw : (validAmount wreq.amount && validDescription wreq.description) =
      true)
    (hvt : (validAmount treq.amount && validDescription treq.description) =
      true)
    (hne : (treq.fromAccountId == treq.toAccountId) = false)
    (hfd : findAccount st dreq.accountId = some account)
    (hfw : findAccount st wreq.accountId = some account)
    (hft : findAccount st treq.fromAccountId = some fa)
    (htt : findAccount st treq.toAccountId = some ta) :
    ((deposit st dreq actor true).response =
        Response.error 403 ErrMsg.accessDenied
      ↔ authorizedOnAccount account actor = false)
    ∧ ((withdraw st wreq actor true).response =
        Response.error 403 ErrMsg.accessDenied
      ↔ authorizedOnAccount account actor = false)
    ∧ ((transfer st treq actor true).response =
        Response.error 403 ErrMsg.accessDeniedFromAccount
      ↔ authorizedOnAccount fa actor = false)
    ∧ (∀ b1 b2 : Nat,
        authorizedOnAccount { account with cooperativeBankId := b1 }
          { actor with cooperativeBankId := b2 } =
        authorizedOnAccount account actor)
    ∧ (account.userId ≠ actor.id →
        authorizedOnAccount account { actor with role := Role.super_admin } =
          false)
    ∧ (∀ uid bid : Nat,
        authorizedOnAccount account
          { id := uid, role := Role.admin, cooperativeBankId := bid } =
          true) := by
  refine ⟨?_, ?_, ?_, fun b1 b2 => rfl, fun hno => ?_, fun uid bid => ?_⟩
  · by_cases hauth : authorizedOnAccount account actor
    · constructor
      · intro h
        by_cases hact : account.isActive
        · rw [deposit_run st dreq actor true account hvd hfd hauth hact]
            at h
          simp at h
        · rw [deposit_inactive st dreq actor true account hvd hfd hauth
            (by simpa using hact)] at h
          simp at h
      · intro h
        rw [hauth] at h
        simp at h
    · have hfalse : authorizedOnAccount account actor = false := by
        simpa using hauth
      rw [deposit_denied st dreq actor true account hvd hfd hfalse]
      simp [hfalse]
  · by_cases hauth : authorizedOnAccount account actor
    · constructor
      · intro h
        by_cases hact : account.isActive
        · rw [withdraw_run st wreq actor true account hvw hfw hauth hact]
            at h
          by_cases hcase :
              account.balance - account.minimumBalance < wreq.amount
          · rw [if_pos hcase] at h
            simp at h
          · rw [if_neg hcase] at h
            simp at h
        · rw [withdraw_inactive st wreq actor true account hvw hfw hauth
            (by simpa using hact)] at h
          simp at h
      · intro h
        rw [hauth] at h
        simp at h
    · have hfalse : authorizedOnAccount account actor = false := by
        simpa using hauth
      rw [withdraw_denied st wreq actor true account hvw hfw hfalse]
      simp [hfalse]
  · by_cases hauth : authorizedOnAccount fa actor
    · constructor
      · intro h
        by_cases hact : (!fa.isActive || !ta.isActive) = true
        · rw [transfer_inactive st treq actor true fa ta hvt hne hft htt
            hauth hact] at h
          simp at h
        · have hboth : fa.isActive = true ∧ ta.isActive = true := by
            simpa using hact
          rw [transfer_run st treq actor true fa ta hvt hne hft htt hauth
            hboth.1 hboth.2] at h
          by_cases hcase : fa.balance - fa.minimumBalance < treq.amount
          · rw [if_pos hcase] at h
            simp at h
          · rw [if_neg hcase] at h
            simp at h
      · intro h
        rw [hauth] at h
        simp at h
    · have hfalse : authorizedOnAccount fa actor = false := by
        simpa using hauth
      rw [transfer_denied st treq actor true fa ta hvt hne hft htt hfalse]
      simp [hfalse]
  · simp [authorizedOnAccount, hno]
  · simp [authorizedOnAccount]

/-- Witness for the amended C3 at a concrete input: for the member actor
    owning both accounts of the symmetric state, the deposit route does not
    answer access-denied. -/
theorem accessDenied_iff_witness :
    (deposit stSym reqDep ownerA true).response =
        Response.error 403 ErrMsg.accessDenied
      ↔ authorizedOnAccount acctP ownerA = false :=
  (accessDenied_iff_not_owner_admin_manager stSym ownerA acctP acctP acctQ
    reqDep { accountId := 1, amount := 100, description := "cash" } reqPQ
    (by decide) (by decide) (by decide) (by decide) (by decide) (by decide)
    (by decide) (by decide)).1

/-- C2 counterexample: a deposit whose transaction insert fails after the
    balance write leaves the balance permanently changed (1000 became
    1100) with no Transaction record persisted - the staged mutation is
    not rolled back. -/
theorem depositNotAtomicOnLedgerFailure :
    (deposit stSym reqDep ownerA false).response =
        Response.error 500 ErrMsg.internalError
    ∧ findAccount (deposit stSym reqDep ownerA false).state 1 =
        some { acctP with balance := 1100 }
    ∧ (deposit stSym reqDep ownerA false).state.transactions = [] := by
  decide

/-- C2 (amended): only the transfer route is atomic - on a failed session
    it returns the incoming state unchanged - while deposit and withdraw
    write the balance and the Transaction record in two independent saves:
    when the record insert fails, both routes keep the already-written
    balance and persist no Transaction. -/
theorem transferAtomic_depositWithdrawNot
    (st : BankState) (actor : Actor) (treq : TransferReq)
    (dreq : DepositReq) (wreq : WithdrawReq) (da wa : Account)
    (hvd : (validAmount dreq.amount && validDescription dreq.description
            && validReference dreq.referenceNumber) = true)
    (hfd : findAccount st dreq.accountId = some da)
    (hda : authorizedOnAccount da actor = true)
    (hdact : da.isActive = true)
    (hvw : (validAmount wreq.amount && validDescription wreq.description) =
      true)
    (hfw : findAccount st wreq.accountId = some wa)
    (hwa : authorizedOnAccount wa actor = true)
    (hwact : wa.isActive = true)
    (hwavail : wreq.amount ≤ wa.balance - wa.minimumBalance) :
    (transfer st treq actor false).state = st
    ∧ (deposit st dreq actor false).state.accounts =
        saveAccount st.accounts
          { da with balance := da.balance + dreq.amount }
    ∧ (deposit st dreq actor false).state.transactions = st.transactions
    ∧ (deposit st dreq actor false).response =
        Response.error 500 ErrMsg.internalError
    ∧ (withdraw st wreq actor false).state.accounts =
        saveAccount st.accounts
          { wa with balance := wa.balance - wreq.amount }
    ∧ (withdraw st wreq actor false).state.transactions = st.transactions
    ∧ (withdraw st wreq actor false).response =
        Response.error 500 ErrMsg.internalError := by
  have hd := deposit_run st dreq actor false da hvd hfd hda hdact
  have hw := withdraw_run st wreq actor false wa hvw hfw hwa hwact
  rw [if_neg (Int.not_lt.mpr hwavail)] at hw
  simp only [Bool.false_eq_true, if_false] at hd hw
  exact ⟨transfer_abort_state st treq actor,
    by rw [hd], by rw [hd], by rw [hd],
    by rw [hw], by rw [hw], by rw [hw]⟩

/-- Witness for the amended C2 at a concrete input: the aborted transfer
    leaves the symmetric state unchanged. -/
theorem transferAtomic_witness :
    (transfer stSym reqPQ ownerA false).state = stSym :=
  (transferAtomic_depositWithdrawNot stSym ownerA reqPQ reqDep
    { accountId := 1, amount := 100, description := "cash" } acctP acctP
    (by decide) (by decide) (by decide) (by decide) (by decide) (by decide)
    (by decide) (by decide) (by decide)).1

/-- C9 (amended): whenever a transfer reaches its mutation phase, the two
    account records are acquired and saved in request order - the source
    account first, then the destination - not in a fixed direction-
    independent global order. -/
theorem transfer_saveOrder_is_request_order
    (st : BankState) (req : TransferReq) (actor : Actor) (ok : Bool)
    (fa ta : Account)
    (hv : (validAmount req.amount && validDescription req.description) = true)
    (hne : (req.fromAccountId == req.toAccountId) = false)
    (hft : findAccount st req.fromAccountId = some fa)
    (htt : findAccount st req.toAccountId = some ta)
    (hauth : authorizedOnAccount fa actor = true)
    (hfa : fa.isActive = true) (hta : ta.isActive = true)
    (havail : req.amount ≤ fa.balance - fa.minimumBalance) :
    (transfer st req actor ok).saveTrace =
      [req.fromAccountId, req.toAccountId] := by
  have hrun := transfer_run st req actor ok fa ta hv hne hft htt hauth
    hfa hta
  rw [if_neg (Int.not_lt.mpr havail)] at hrun
  rw [hrun]
  cases ok
  · simp [findAccount_id hft, findAccount_id htt]
  · simp [findAccount_id hft, findAccount_id htt]

/-- Witness for the amended C9: the concrete transfer from account 1 to
    account 2 saves account 1 first. -/
theorem transfer_saveOrder_witness :
    (transfer stSym reqPQ ownerA true).saveTrace = [1, 2] :=
  transfer_saveOrder_is_request_order stSym reqPQ ownerA true acctP acctQ
    (by decide) (by decide) (by decide) (by decide) (by decide) (by decide)
    (by decide) (by decide)

/-- Auxiliary: membership in a collection after a save keeps balances
    non-negative when the saved document's balance is non-negative. -/
theorem nonneg_after_save {l : List Account} {acc a : Account}
    (hl : ∀ b ∈ l, 0 ≤ b.balance) (hacc : 0 ≤ acc.balance)
    (ha : a ∈ saveAccount l acc) : 0 ≤ a.balance := by
  rcases mem_saveAccount ha with h | h
  · rw [h]
    exact hacc
  · exact hl a h

/-- Auxiliary: the validator bound gives a positive amount. -/
theorem one_le_of_validAmount {amount : Int}
    (h : validAmount amount = true) : 1 ≤ amount :=
  of_decide_eq_true h

/-- Auxiliary: the deposit route preserves non-negative balances. -/
theorem deposit_nonneg (st : BankState) (req : DepositReq) (actor : Actor)
    (ok : Bool) (hbal : ∀ b ∈ st.accounts, 0 ≤ b.balance) :
    ∀ a ∈ (deposit st req actor ok).state.accounts, 0 ≤ a.balance := by
  intro a ha
  by_cases hval : (validAmount req.amount && validDescription req.description
      && validReference req.referenceNumber) = true
  · cases hfa : findAccount st req.accountId with
    | none =>
      unfold deposit at ha
      rw [hval, hfa] at ha
      exact hbal a ha
    | some account =>
      by_cases hauth : authorizedOnAccount account actor = true
      · by_cases hact : account.isActive = true
        · rw [deposit_run st req actor ok account hval hfa hauth hact] at ha
          have hamount : 1 ≤ req.amount := by
            have h := hval
            simp only [Bool.and_eq_true] at h
            exact one_le_of_validAmount h.1.1
          have hge : 0 ≤ account.balance + req.amount := by
            have := hbal account (findAccount_mem hfa)
            omega
          cases ok
          · simp only [Bool.false_eq_true, if_false] at ha
            exact nonneg_after_save hbal hge ha
          · simp only [if_true] at ha
            exact nonneg_after_save hbal hge ha
        · rw [deposit_inactive st req actor ok account hval hfa hauth
            (by simpa using hact)] at ha
          exact hbal a ha
      · rw [deposit_denied st req actor ok account hval hfa
          (by simpa using hauth)] at ha
        exact hbal a ha
  · unfold deposit at ha
    rw [show (validAmount req.amount && validDescription req.description
      && validReference req.referenceNumber) = false by
        simpa using hval] at ha
    exact hbal a ha

/-- Auxiliary: the withdraw route preserves non-negative balances, given
    non-negative minimum balances. -/
theorem withdraw_nonneg (st : BankState) (req : WithdrawReq) (actor : Actor)
    (ok : Bool) (hbal : ∀ b ∈ st.accounts, 0 ≤ b.balance)
    (hmin : ∀ b ∈ st.accounts, 0 ≤ b.minimumBalance) :
    ∀ a ∈ (withdraw st req actor ok).state.accounts, 0 ≤ a.balance := by
  intro a ha
  by_cases hval : (validAmount req.amount
      && validDescription req.description) = true
  · cases hfa : findAccount st req.accountId with
    | none =>
      unfold withdraw at ha
      rw [hval, hfa] at ha
      exact hbal a ha
    | some account =>
      by_cases hauth : authorizedOnAccount account actor = true
      · by_cases hact : account.isActive = true
        · rw [withdraw_run st req actor ok account hval hfa hauth hact] at ha
          by_cases hcase :
              account.balance - account.minimumBalance < req.amount
          · rw [if_pos hcase] at ha
            exact hbal a ha
          · rw [if_neg hcase] at ha
            have hge : 0 ≤ account.balance - req.amount := by
              have := hmin account (findAccount_mem hfa)
              omega
            cases ok
            · simp only [Bool.false_eq_true, if_false] at ha
              exact nonneg_after_save hbal hge ha
            · simp only [if_true] at ha
              exact nonneg_after_save hbal hge ha
        · rw [withdraw_inactive st req actor ok account hval hfa hauth
            (by simpa using hact)] at ha
          exact hbal a ha
      · rw [withdraw_denied st req actor ok account hval hfa
          (by simpa using hauth)] at ha
        exact hbal a ha
  · unfold withdraw at ha
    rw [show (validAmount req.amount && validDescription req.description) =
      false by simpa using hval] at ha
    exact hbal a ha

/-- Auxiliary: the transfer route preserves non-negative balances, given
    non-negative minimum balances. -/
theorem transfer_nonneg (st : BankState) (req : TransferReq) (actor : Actor)
    (ok : Bool) (hbal : ∀ b ∈ st.accounts, 0 ≤ b.balance)
    (hmin : ∀ b ∈ st.accounts, 0 ≤ b.minimumBalance) :
    ∀ a ∈ (transfer st req actor ok).state.accounts, 0 ≤ a.balance := by
  intro a ha
  by_cases hval : (validAmount req.amount
      && validDescription req.description) = true
  · by_cases hsame : (req.fromAccountId == req.toAccountId) = true
    · unfold transfer at ha
      rw [hval, hsame] at ha
      exact hbal a ha
    · have hne : (req.fromAccountId == req.toAccountId) = false := by
        simpa using hsame
      cases hft : findAccount st req.fromAccountId with
      | none =>
        unfold transfer at ha
        rw [hval, hne, hft] at ha
        exact hbal a ha
      | some fa =>
        cases htt : findAccount st req.toAccountId with
        | none =>
          unfold transfer at ha
          rw [hval, hne, hft, htt] at ha
          exact hbal a ha
        | some ta =>
          by_cases hauth : authorizedOnAccount fa actor = true
          · by_cases hact : (!fa.isActive || !ta.isActive) = true
            · rw [transfer_inactive st req actor ok fa ta hval hne hft htt
                hauth hact] at ha
              exact hbal a ha
            · have hboth : fa.isActive = true ∧ ta.isActive = true := by
                simpa using hact
              rw [transfer_run st req actor ok fa ta hval hne hft htt hauth
                hboth.1 hboth.2] at ha
              by_cases hcase : fa.balance - fa.minimumBalance < req.amount
              · rw [if_pos hcase] at ha
                exact hbal a ha
              · rw [if_neg hcase] at ha
                have hamount : 1 ≤ req.amount := by
                  have h := hval
                  simp only [Bool.and_eq_true] at h
                  exact one_le_of_validAmount h.1
                have hfa0 : 0 ≤ fa.balance - req.amount := by
                  have := hmin fa (findAccount_mem hft)
                  omega
                have hta0 : 0 ≤ ta.balance + req.amount := by
                  have := hbal ta (findAccount_mem htt)
                  omega
                cases ok
                · simp only [Bool.false_eq_true, if_false] at ha
                  exact hbal a ha
                · simp only [if_true] at ha
                  rcases mem_saveAccount ha with h | h
                  · rw [h]
                    exact hta0
                  · exact nonneg_after_save hbal hfa0 h
          · rw [transfer_denied st req actor ok fa ta hval hne hft htt
              (by simpa using hauth)] at ha
            exact hbal a ha
  · unfold transfer at ha
    rw [show (validAmount req.amount && validDescription req.description) =
      false by simpa using hval] at ha
    exact hbal a ha

/-- Auxiliary: account creation preserves non-negative balances (the new
    document starts at 0). -/
theorem createAccount_nonneg (st : BankState) (req : CreateAccountReq)
    (actor : Actor) (newId : Nat)
    (hbal : ∀ b ∈ st.accounts, 0 ≤ b.balance) :
    ∀ a ∈ (createAccount st req actor newId).state.accounts,
      0 ≤ a.balance := by
  intro a ha
  by_cases hv : validCreateReq req = true
  · by_cases hdup : (st.accounts.any (fun a => a.userId == actor.id
        && a.accountType == req.accountType && a.isActive)) = true
    · unfold createAccount at ha
      rw [hv, hdup] at ha
      exact hbal a ha
    · have hdupf : (st.accounts.any (fun a => a.userId == actor.id
          && a.accountType == req.accountType && a.isActive)) = false := by
        simpa using hdup
      by_cases hnum : (st.accounts.any (fun a => a.accountNumber ==
          nextAccountNumber st actor.cooperativeBankId)) = true
      · unfold createAccount at ha
        rw [hv, hdupf, hnum] at ha
        exact hbal a ha
      · have hnumf : (st.accounts.any (fun a => a.accountNumber ==
            nextAccountNumber st actor.cooperativeBankId)) = false := by
          simpa using hnum
        unfold createAccount at ha
        rw [hv, hdupf, hnumf] at ha
        rcases List.mem_append.mp ha with h | h
        · exact hbal a h
        · have hnew : a = newAccountDoc st req actor newId := by
            simpa using h
          rw [hnew]
          exact le_refl 0
  · unfold createAccount at ha
    rw [show validCreateReq req = false by simpa using hv] at ha
    exact hbal a ha

/-- Auxiliary: the nominee-details update preserves non-negative balances
    (it never touches the balance). -/
theorem updateAccountDetails_nonneg (st : BankState) (accountId : Nat)
    (actor : Actor) (nominee : Option String)
    (hbal : ∀ b ∈ st.accounts, 0 ≤ b.balance) :
    ∀ a ∈ (updateAccountDetails st accountId actor nominee).state.accounts,
      0 ≤ a.balance := by
  intro a ha
  cases hfa : findAccount st accountId with
  | none =>
    unfold updateAccountDetails at ha
    rw [hfa] at ha
    exact hbal a ha
  | some account =>
    unfold updateAccountDetails at ha
    rw [hfa] at ha
    by_cases hauth : authorizedOnAccount account actor = true
    · simp only [hauth, Bool.not_true, Bool.false_eq_true, if_false] at ha
      have hacc := hbal account (findAccount_mem hfa)
      cases nominee with
      | none => exact nonneg_after_save hbal hacc ha
      | some n =>
        exact nonneg_after_save hbal
          (show (0 : Int) ≤
            Account.balance { account with nomineeDetails := some n }
            from hacc) ha
    · simp only [show authorizedOnAccount account actor = false by
        simpa using hauth, Bool.not_false, if_true] at ha
      exact hbal a ha

/-- Auxiliary: deactivation preserves non-negative balances (it never
    touches the balance). -/
theorem deactivateAccount_nonneg (st : BankState) (accountId : Nat)
    (actor : Actor) (hbal : ∀ b ∈ st.accounts, 0 ≤ b.balance) :
    ∀ a ∈ (deactivateAccount st accountId actor).state.accounts,
      0 ≤ a.balance := by
  intro a ha
  cases hfa : findAccount st accountId with
  | none =>
    unfold deactivateAccount at ha
    rw [hfa] at ha
    exact hbal a ha
  | some account =>
    unfold deactivateAccount at ha
    rw [hfa] at ha
    by_cases hauth : authorizedOnAccount account actor = true
    · simp only [hauth, Bool.not_true, Bool.false_eq_true, if_false] at ha
      by_cases hact : account.isActive = true
      · simp only [hact, Bool.not_true, Bool.false_eq_true, if_false] at ha
        by_cases hpos : 0 < account.balance
        · rw [if_pos hpos] at ha
          exact hbal a ha
        · rw [if_neg hpos] at ha
          exact nonneg_after_save hbal
            (show (0 : Int) ≤
              Account.balance { account with isActive := false }
              from hbal account (findAccount_mem hfa)) ha
      · simp only [show account.isActive = false by simpa using hact,
          Bool.not_false, if_true] at ha
        exact hbal a ha
    · simp only [show authorizedOnAccount account actor = false by
        simpa using hauth, Bool.not_false, if_true] at ha
      exact hbal a ha

/-- C7: starting from a state with non-negative balances and non-negative
    minimum balances (the schema's min constraints), every operation of
    the system - account creation, deposit, withdrawal, transfer, account
    update and deactivation, with or without an injected ledger-write
    failure - leaves every account balance non-negative. -/
theorem applyOp_balance_nonneg (st : BankState) (op : Op)
    (hbal : ∀ a ∈ st.accounts, 0 ≤ a.balance)
    (hmin : ∀ a ∈ st.accounts, 0 ≤ a.minimumBalance) :
    ∀ a ∈ (applyOp st op).state.accounts, 0 ≤ a.balance := by
  cases op with
  | create req actor newId => exact createAccount_nonneg st req actor newId hbal
  | deposit req actor ok => exact deposit_nonneg st req actor ok hbal
  | withdraw req actor ok => exact withdraw_nonneg st req actor ok hbal hmin
  | transfer req actor ok => exact transfer_nonneg st req actor ok hbal hmin
  | update accountId actor nominee =>
    exact updateAccountDetails_nonneg st accountId actor nominee hbal
  | deactivate accountId actor =>
    exact deactivateAccount_nonneg st accountId actor hbal

/-- Witness for C7 at a concrete input: after depositing 100 into account 1
    of the symmetric state, the touched account's balance is still
    non-negative. -/
theorem applyOp_balance_nonneg_witness :
    (0 : Int) ≤ Account.balance { acctP with balance := 1100 } :=
  applyOp_balance_nonneg stSym (Op.deposit reqDep ownerA true) (by decide)
    (by decide) { acctP with balance := 1100 } (by decide)

end CoopBank
